import Mathlib

/-!
Verification of the REW network audio receiver (Python, three receive-loop
variants: `rew_audio_receiver.py`, `rew_audio_receiver_minimal.py`,
`rew_audio_receiver_simple.py`).  The per-datagram processing of each loop is
embedded as a pure step function over an explicit state record; wall-clock
times are integers (the full variant stores `int(time.time())`), RTP fields
are naturals bounded by their bit width, and Python's `x & 0xFFFF` on an
arbitrary integer is `x % 65536 : Int`.
-/

/-- RTP header fields produced by `struct.unpack` of the first 12 bytes plus
the remaining bytes as payload (`data[12:]`). -/
structure ParsedPacket where
  version : Nat
  payload_type : Nat
  sequence : Nat
  timestamp : Nat
  ssrc : Nat
  payload : List Nat
deriving Repr, DecidableEq

/-- Big-endian 16-bit value from two bytes (the `H` of `struct.unpack`). -/
def u16be (b0 b1 : Nat) : Nat := b0 * 256 + b1

/-- Big-endian 32-bit value from four bytes (the `I` of `struct.unpack`). -/
def u32be (b0 b1 b2 b3 : Nat) : Nat := ((b0 * 256 + b1) * 256 + b2) * 256 + b3

/-- Header parsing as done by every variant: reject datagrams shorter than 12
bytes, otherwise `struct.unpack` of `data[:12]` as two bytes, a big-endian
u16 and two big-endian u32, with `version = (byte0 >> 6) & 0x3`,
`payload_type = byte1 & 0x7F`, and payload `data[12:]`. -/
def parseHeader (data : List Nat) : Option ParsedPacket :=
  if data.length < 12 then none
  else some {
    version := data.getD 0 0 / 64 % 4,
    payload_type := data.getD 1 0 % 128,
    sequence := u16be (data.getD 2 0) (data.getD 3 0),
    timestamp := u32be (data.getD 4 0) (data.getD 5 0) (data.getD 6 0) (data.getD 7 0),
    ssrc := u32be (data.getD 8 0) (data.getD 9 0) (data.getD 10 0) (data.getD 11 0),
    payload := data.drop 12 }

/-- Synthetic big-endian byte encoders, inverse to `u16be` / `u32be`. -/
def encodeU16 (n : Nat) : List Nat := [n / 256 % 256, n % 256]

/-- Four big-endian bytes of a 32-bit value. -/
def encodeU32 (n : Nat) : List Nat :=
  [n / 16777216 % 256, n / 65536 % 256, n / 256 % 256, n % 256]

/-- Synthetic RTP encoder for the fields the parser extracts: byte0 carries
the version in bits [7:6] (padding, extension, CSRC count zero), byte1 the
payload type (marker zero), then big-endian sequence, timestamp, SSRC, and
the payload bytes. -/
def encodeRtp (version payload_type seq ts ssrc : Nat) (payload : List Nat) : List Nat :=
  version * 64 :: payload_type ::
    (encodeU16 seq ++ encodeU32 ts ++ encodeU32 ssrc ++ payload)

/-- The sequence-gap check shared by the full and minimal variants,
extracted as the Sequence Tracker operation: given the stored
`last_sequence` (`-1` means unset) and the incoming sequence, return the
dropped-packet count added to `errors` and the new `last_sequence`.
Mirrors: `expected = (last + 1) & 0xFFFF`;
`dropped = (seq - expected) & 0xFFFF` when `seq != expected`;
`last = seq` always. -/
def observe (lastSequence seq : Int) : Int × Int :=
  if lastSequence = -1 then (0, seq)
  else
    let expected := (lastSequence + 1) % 65536
    if seq = expected then (0, seq)
    else ((seq - expected) % 65536, seq)

/-- Mutable statistics of `AudioReceiver` (`rew_audio_receiver.py`); the
defaults are the values set in `__init__`. -/
structure RxStats where
  packets_received : Nat := 0
  bytes_received : Nat := 0
  errors : Int := 0
  last_sequence : Int := -1
  connection_errors : Nat := 0
  last_packet_time : Int := 0
  stream_start_time : Int := 0
deriving Repr, DecidableEq

/-- Which collaborators the loop body invoked for one datagram. -/
structure RxEffects where
  trackerInvoked : Bool
  sinkWriteInvoked : Bool
deriving Repr, DecidableEq

/-- Per-datagram processing of `AudioReceiver.run` (`rew_audio_receiver.py`
lines 129-173): set `last_packet_time` to the current time, drop datagrams
shorter than 12 bytes or with version different from 2, otherwise attempt
the ALSA write for a non-empty payload (an `ALSAAudioError`, here the flag
`writeErr`, is swallowed and changes nothing), increment
`packets_received` and `bytes_received`, then run the sequence-gap check
and set `last_sequence`. -/
def processDatagram (s : RxStats) (data : List Nat) (now : Int) (writeErr : Bool) :
    RxStats × RxEffects :=
  let s0 := { s with last_packet_time := now }
  match parseHeader data with
  | none => (s0, ⟨false, false⟩)
  | some p =>
    if p.version ≠ 2 then (s0, ⟨false, false⟩)
    else
      let s1 := { s0 with packets_received := s0.packets_received + 1,
                          bytes_received := s0.bytes_received + data.length }
      let dr := observe s1.last_sequence (p.sequence : Int)
      ({ s1 with errors := s1.errors + dr.1, last_sequence := dr.2 },
       ⟨true, !p.payload.isEmpty⟩)

/-- Connection states returned by `AudioReceiver.get_connection_status`. -/
inductive ConnStatus
  | STOPPED
  | WAITING
  | GOOD
  | SLOW
  | DISCONNECTED
deriving Repr, DecidableEq

/-- `AudioReceiver.get_connection_status` (`rew_audio_receiver.py` lines
199-217): STOPPED when not running, WAITING when `last_packet_time` is
still 0, then GOOD / SLOW / DISCONNECTED by the elapsed whole seconds. -/
def get_connection_status (running : Bool) (last_packet_time now : Int) : ConnStatus :=
  if running = false then .STOPPED
  else if last_packet_time = 0 then .WAITING
  else if now - last_packet_time < 2 then .GOOD
  else if now - last_packet_time < 10 then .SLOW
  else .DISCONNECTED

/-- The "no data received" warning decision of
`AudioReceiver.check_connection_health` (`rew_audio_receiver.py` lines
219-236): nothing when not running, nothing during the first 10 seconds of
uptime, else warn when more than 15 seconds passed since the last packet. -/
def check_connection_health (running : Bool) (now last_packet_time stream_start_time : Int) :
    Bool :=
  if running = false then false
  else if now - stream_start_time < 10 then false
  else decide (now - last_packet_time > 15)

/-- State of `MinimalAudioReceiver` (`rew_audio_receiver_minimal.py`):
the stats dictionary plus whether the `aplay` child process is alive
(`aplay_process is not None`). -/
structure MinState where
  packets_received : Nat := 0
  bytes_received : Nat := 0
  errors : Int := 0
  last_sequence : Int := -1
  aplayAlive : Bool := true
deriving Repr, DecidableEq

/-- Per-datagram processing of `MinimalAudioReceiver.run`
(`rew_audio_receiver_minimal.py` lines 109-146).  `writeFails` says the
stdin write raised `BrokenPipeError`/`OSError`; then `restart_aplay` is
called and leaves the process alive iff `restartOk`.  The returned boolean
is whether the loop continues — this body always continues. -/
def minimalStep (s : MinState) (data : List Nat) (writeFails restartOk : Bool) :
    MinState × Bool :=
  match parseHeader data with
  | none => (s, true)
  | some p =>
    if p.version ≠ 2 then (s, true)
    else
      let s1 := if p.payload ≠ [] ∧ s.aplayAlive ∧ writeFails
                then { s with aplayAlive := restartOk } else s
      let s2 := { s1 with packets_received := s1.packets_received + 1,
                          bytes_received := s1.bytes_received + data.length }
      let dr := observe s2.last_sequence (p.sequence : Int)
      ({ s2 with errors := s2.errors + dr.1, last_sequence := dr.2 }, true)

/-- State of `SimpleAudioReceiver` (`rew_audio_receiver_simple.py`): the
global stats dictionary, the receiver's `last_packet_time`, and whether the
`aplay` child process is alive. -/
structure SimpleState where
  packets_received : Nat := 0
  bytes_received : Nat := 0
  errors : Nat := 0
  last_sequence : Int := -1
  connected : Bool := false
  connection_time : Int := 0
  last_sender : Option Nat := none
  last_packet_time : Int := 0
  aplayAlive : Bool := true
deriving Repr, DecidableEq

/-- One iteration's input event for the simple variant's receive loop:
a received datagram with its sender address, a socket timeout, or any
other socket error. -/
inductive RxEvent
  | datagram (data : List Nat) (senderAddr : Nat)
  | timeout
  | ioError
deriving Repr, DecidableEq

/-- Outcome of the `aplay_process.stdin.write` call in the simple variant. -/
inductive WriteResult
  | ok
  | brokenPipe
  | otherError
deriving Repr, DecidableEq

/-- Connection detection of `SimpleAudioReceiver.start`
(`rew_audio_receiver_simple.py` lines 189-200). -/
def simpleConnUpdate (s : SimpleState) (senderAddr : Nat) (now : Int) : SimpleState :=
  if s.connected = false then
    { s with connected := true, connection_time := now, last_sender := some senderAddr }
  else if s.last_sender ≠ some senderAddr then
    { s with last_sender := some senderAddr }
  else s

/-- Statistics update of `SimpleAudioReceiver.start`
(`rew_audio_receiver_simple.py` lines 202-206): no gap check here,
`last_sequence` is assigned directly. -/
def simpleStatsUpdate (s : SimpleState) (dataLen seq : Nat) (now : Int) : SimpleState :=
  { s with packets_received := s.packets_received + 1,
           bytes_received := s.bytes_received + dataLen,
           last_sequence := (seq : Int),
           last_packet_time := now }

/-- One iteration of the receive loop of `SimpleAudioReceiver.start`
(`rew_audio_receiver_simple.py` lines 157-223).  On a datagram: reject
short or non-v2 packets; for a non-empty payload with a live sink, a
broken pipe triggers `stop_aplay` then `start_aplay`, and when that
restart fails the body executes `break` — the second component `false`
means the loop exits; any other write outcome continues to the connection
detection and statistics update.  On a timeout: flip `connected` off after
more than 5 seconds without packets.  On another socket error: count it
and continue. -/
def simpleStep (s : SimpleState) (ev : RxEvent) (writeRes : WriteResult)
    (restartOk : Bool) (now : Int) : SimpleState × Bool :=
  match ev with
  | .datagram data senderAddr =>
    match parseHeader data with
    | none => (s, true)
    | some p =>
      if p.version ≠ 2 then (s, true)
      else if s.aplayAlive ∧ p.payload ≠ [] then
        match writeRes with
        | .brokenPipe =>
          if restartOk then
            (simpleStatsUpdate (simpleConnUpdate { s with aplayAlive := true } senderAddr now)
              data.length p.sequence now, true)
          else ({ s with aplayAlive := false }, false)
        | _ =>
          (simpleStatsUpdate (simpleConnUpdate s senderAddr now)
            data.length p.sequence now, true)
      else
        (simpleStatsUpdate (simpleConnUpdate s senderAddr now)
          data.length p.sequence now, true)
  | .timeout =>
    if s.connected ∧ s.last_packet_time > 0 ∧ now - s.last_packet_time > 5 then
      ({ s with connected := false, last_sender := none }, true)
    else (s, true)
  | .ioError => ({ s with errors := s.errors + 1 }, true)

/-- The datagrams of the C9 run: sequences 0..9, then 15, then 16..20,
each a valid version-2 RTP packet with empty payload. -/
def c9Run : RxStats :=
  (([0,1,2,3,4,5,6,7,8,9,15,16,17,18,19,20] : List Nat).map
    (fun n => encodeRtp 2 96 n 0 0 [])).foldl
    (fun s d => (processDatagram s d 0 false).1) {}

/-! ## Helper lemmas -/

/-- A duplicate sequence number (non-first observation of the value already
stored) yields a dropped count of 65535 and re-stores the same value. -/
theorem observe_dup (last : Int) (h0 : 0 ≤ last) (h1 : last ≤ 65535) :
    observe last last = (65535, last) := by
  have hne : last ≠ -1 := by omega
  by_cases h : last = 65535
  · subst h; decide
  · have he : (last + 1) % 65536 = last + 1 :=
      Int.emod_eq_of_lt (by omega) (by omega)
    have hm : (last - (last + 1)) % 65536 = 65535 := by
      have : last - (last + 1) = -1 := by ring
      rw [this]; decide
    simp only [observe, if_neg hne, he, if_neg (show last ≠ last + 1 by omega), hm]

/-! ## Claim theorems -/

/-- Claim C1: the Sequence Tracker's observe returns 0 and stores the
sequence on a first call; otherwise, with expected = (lastSequence + 1)
mod 65536, it returns 0 when seq equals expected and (seq - expected)
mod 65536 (in [0, 65535], never negative) when it differs, always storing
seq afterwards; observe 65535 then observe 0 returns 0 (wraparound). -/
theorem C1_observe_spec :
    (∀ seq : Int, observe (-1) seq = (0, seq)) ∧
    (∀ last seq : Int, last ≠ -1 → (observe last seq).2 = seq) ∧
    (∀ last seq : Int, last ≠ -1 → seq = (last + 1) % 65536 →
        (observe last seq).1 = 0) ∧
    (∀ last seq : Int, last ≠ -1 → seq ≠ (last + 1) % 65536 →
        (observe last seq).1 = (seq - (last + 1) % 65536) % 65536 ∧
        0 ≤ (observe last seq).1 ∧ (observe last seq).1 ≤ 65535) ∧
    (observe (observe (-1) 65535).2 0).1 = 0 := by
  refine ⟨fun seq => by simp [observe], ?_, ?_, ?_, by decide⟩
  · intro last seq h
    simp only [observe, if_neg h]
    split <;> rfl
  · intro last seq h he
    simp only [observe, if_neg h, if_pos he]
  · intro last seq h he
    have hv : observe last seq = ((seq - (last + 1) % 65536) % 65536, seq) := by
      simp only [observe, if_neg h, if_neg he]
    rw [hv]
    have h1 := Int.emod_nonneg (seq - (last + 1) % 65536)
      (show (65536:Int) ≠ 0 by decide)
    have h2 := Int.emod_lt_of_pos (seq - (last + 1) % 65536)
      (show (0:Int) < 65536 by decide)
    exact ⟨rfl, h1, by omega⟩

/-- Witness for C1 at last = 5, seq = 8 (a gap of 2). -/
theorem C1_observe_spec_witness :
    (observe 5 8).1 = ((8:Int) - ((5:Int) + 1) % 65536) % 65536 ∧
    0 ≤ (observe 5 8).1 ∧ (observe 5 8).1 ≤ 65535 :=
  C1_observe_spec.2.2.2.1 5 8 (by decide) (by decide)

/-- Counterexample to claim C2: after observing 5, observing the duplicate 5
returns 65535, not 0 (the code computes (5 - 6) mod 65536). -/
theorem C2_duplicate_counterexample :
    (observe (observe (-1) 5).2 5).1 = 65535 ∧
    ¬ (observe (observe (-1) 5).2 5).1 = 0 := by
  decide

/-- Claim C2 (amended): a non-first observe of a duplicate sequence number
returns 65535, not 0, and such a validated duplicate datagram increases
errors by 65535 while re-storing the same lastSequence. -/
theorem C2_duplicate_amended :
    (∀ last : Int, 0 ≤ last → last ≤ 65535 →
      (observe last last).1 = 65535 ∧ (observe last last).2 = last) ∧
    (∀ (s : RxStats) (data : List Nat) (now : Int) (w : Bool) (p : ParsedPacket),
      parseHeader data = some p → p.version = 2 → (p.sequence : Int) = s.last_sequence →
      0 ≤ s.last_sequence → s.last_sequence ≤ 65535 →
      (processDatagram s data now w).1.errors = s.errors + 65535 ∧
      (processDatagram s data now w).1.last_sequence = s.last_sequence) := by
  constructor
  · intro last h0 h1
    rw [observe_dup last h0 h1]
    exact ⟨rfl, rfl⟩
  · intro s data now w p hp hv hs h0 h1
    simp only [processDatagram, hp, hv]
    norm_num
    rw [hs, observe_dup s.last_sequence h0 h1]
    exact ⟨rfl, rfl⟩

/-- Witness for C2's amended theorem at last = 5. -/
theorem C2_duplicate_amended_witness :
    (observe 5 5).1 = 65535 ∧ (observe 5 5).2 = 5 :=
  C2_duplicate_amended.1 5 (by decide) (by decide)

/-- Claim C9: feeding valid packets with sequences 0..9, 15, 16..20 yields a
cumulative reported drop count of 5 and a final lastSequence of 20. -/
theorem C9_gap_run : c9Run.errors = 5 ∧ c9Run.last_sequence = 20 := by decide

/-- The connection-detection step leaves the flag set: whether it reports a
new connection or a sender switch, `connected` is true afterwards. -/
theorem simpleConnUpdate_connected (s : SimpleState) (a : Nat) (now : Int) :
    (simpleConnUpdate s a now).connected = true := by
  cases hb : s.connected
  · simp [simpleConnUpdate, hb]
  · simp [simpleConnUpdate, hb]
    split <;> simp [hb]

/-- The connection-detection step never touches the packet counters. -/
theorem simpleConnUpdate_counters (s : SimpleState) (a : Nat) (now : Int) :
    (simpleConnUpdate s a now).packets_received = s.packets_received ∧
    (simpleConnUpdate s a now).bytes_received = s.bytes_received := by
  unfold simpleConnUpdate
  split
  · exact ⟨rfl, rfl⟩
  · split <;> exact ⟨rfl, rfl⟩

/-- Claim C3: every datagram of at least 12 bytes parses to the fixed
big-endian field layout with the bytes from offset 12 as payload, and
parsing a synthetically encoded version-2 packet recovers exactly the
encoded fields (round-trip). -/
theorem C3_header_roundtrip :
    (∀ data : List Nat, 12 ≤ data.length →
      parseHeader data = some {
        version := data.getD 0 0 / 64 % 4,
        payload_type := data.getD 1 0 % 128,
        sequence := u16be (data.getD 2 0) (data.getD 3 0),
        timestamp := u32be (data.getD 4 0) (data.getD 5 0) (data.getD 6 0) (data.getD 7 0),
        ssrc := u32be (data.getD 8 0) (data.getD 9 0) (data.getD 10 0) (data.getD 11 0),
        payload := data.drop 12 }) ∧
    (∀ (pt seq ts ssrc : Nat) (payload : List Nat),
      pt < 128 → seq < 65536 → ts < 4294967296 → ssrc < 4294967296 →
      parseHeader (encodeRtp 2 pt seq ts ssrc payload) =
        some ⟨2, pt, seq, ts, ssrc, payload⟩) := by
  constructor
  · intro data h
    rw [parseHeader, if_neg (by omega)]
  · intro pt seq ts ssrc payload hpt hseq hts hssrc
    simp [parseHeader, encodeRtp, encodeU16, encodeU32, u16be, u32be]
    omega

/-- Witness for C3's round-trip at a concrete packet. -/
theorem C3_header_roundtrip_witness :
    parseHeader (encodeRtp 2 96 5 1000 42 [1, 2]) =
      some ⟨2, 96, 5, 1000, 42, [1, 2]⟩ :=
  C3_header_roundtrip.2 96 5 1000 42 [1, 2] (by decide) (by decide) (by decide) (by decide)

/-- Claim C4: a datagram shorter than 12 bytes or with version different
from 2 invokes neither the Sequence Tracker nor the sink write and leaves
packets_received, bytes_received, errors and last_sequence all unchanged,
in both the full and the minimal variant. -/
theorem C4_invalid_datagram_no_effect :
    ∀ data : List Nat,
      (data.length < 12 ∨ (parseHeader data).map ParsedPacket.version ≠ some 2) →
      (∀ (s : RxStats) (now : Int) (w : Bool),
        (processDatagram s data now w).2.trackerInvoked = false ∧
        (processDatagram s data now w).2.sinkWriteInvoked = false ∧
        (processDatagram s data now w).1.packets_received = s.packets_received ∧
        (processDatagram s data now w).1.bytes_received = s.bytes_received ∧
        (processDatagram s data now w).1.errors = s.errors ∧
        (processDatagram s data now w).1.last_sequence = s.last_sequence) ∧
      (∀ (s : MinState) (wf ro : Bool), minimalStep s data wf ro = (s, true)) := by
  intro data h
  cases hp : parseHeader data with
  | none =>
    constructor
    · intro s now w
      simp [processDatagram, hp]
    · intro s wf ro
      simp [minimalStep, hp]
  | some p =>
    have hv : p.version ≠ 2 := by
      rcases h with h | h
      · rw [parseHeader, if_pos h] at hp
        exact absurd hp (by simp)
      · rw [hp] at h
        simpa using h
    constructor
    · intro s now w
      simp [processDatagram, hp, hv]
    · intro s wf ro
      simp [minimalStep, hp, hv]

/-- Witness for C4 at a 12-byte datagram carrying version 3. -/
theorem C4_invalid_datagram_no_effect_witness :
    (processDatagram {} (encodeRtp 3 0 7 0 0 []) 42 false).2.trackerInvoked = false ∧
    (processDatagram {} (encodeRtp 3 0 7 0 0 []) 42 false).2.sinkWriteInvoked = false ∧
    (processDatagram {} (encodeRtp 3 0 7 0 0 []) 42 false).1.packets_received
      = ({} : RxStats).packets_received ∧
    (processDatagram {} (encodeRtp 3 0 7 0 0 []) 42 false).1.bytes_received
      = ({} : RxStats).bytes_received ∧
    (processDatagram {} (encodeRtp 3 0 7 0 0 []) 42 false).1.errors
      = ({} : RxStats).errors ∧
    (processDatagram {} (encodeRtp 3 0 7 0 0 []) 42 false).1.last_sequence
      = ({} : RxStats).last_sequence :=
  (C4_invalid_datagram_no_effect (encodeRtp 3 0 7 0 0 []) (Or.inr (by decide))).1 {} 42 false

/-- Counterexample to claim C5: a 1-byte datagram is rejected as too short,
yet processing it still overwrites last_packet_time, because the code
stores the arrival time before header validation. -/
theorem C5_counterexample :
    ([0] : List Nat).length < 12 ∧
    (processDatagram {} [0] 100 false).1.last_packet_time = 100 ∧
    ¬ (processDatagram {} [0] 100 false).1.last_packet_time
        = ({} : RxStats).last_packet_time := by
  decide

/-- Claim C5 (amended): last_packet_time is set to the arrival time of
every received datagram, before header validation, so the derived
connection status reflects elapsed time since the last received datagram
(valid or not) rather than since the last valid packet. -/
theorem C5_last_packet_time_always_updated :
    ∀ (s : RxStats) (data : List Nat) (now : Int) (w : Bool),
      (processDatagram s data now w).1.last_packet_time = now := by
  intro s data now w
  cases hp : parseHeader data with
  | none => simp [processDatagram, hp]
  | some p =>
    by_cases hv : p.version = 2
    · simp [processDatagram, hp, hv]
    · simp [processDatagram, hp, hv]

/-- Claim C6: connection status is STOPPED when the receiver is not
running, WAITING when running with no packet time recorded, and otherwise
exactly one of GOOD, SLOW, DISCONNECTED according to whether the elapsed
time is below 2 seconds, in [2, 10), or at least 10 seconds. -/
theorem C6_connection_status :
    (∀ lpt now : Int, get_connection_status false lpt now = .STOPPED) ∧
    (∀ now : Int, get_connection_status true 0 now = .WAITING) ∧
    (∀ lpt now : Int, lpt ≠ 0 →
      (get_connection_status true lpt now = .GOOD ↔ now - lpt < 2) ∧
      (get_connection_status true lpt now = .SLOW ↔
        (2 ≤ now - lpt ∧ now - lpt < 10)) ∧
      (get_connection_status true lpt now = .DISCONNECTED ↔ 10 ≤ now - lpt)) := by
  refine ⟨fun lpt now => by simp [get_connection_status],
          fun now => by simp [get_connection_status], ?_⟩
  intro lpt now hlpt
  by_cases h2 : now - lpt < 2
  · have hst : get_connection_status true lpt now = .GOOD := by
      simp [get_connection_status, hlpt, h2]
    rw [hst]
    exact ⟨iff_of_true rfl h2, iff_of_false (by simp) (by omega),
           iff_of_false (by simp) (by omega)⟩
  · by_cases h10 : now - lpt < 10
    · have hst : get_connection_status true lpt now = .SLOW := by
        simp [get_connection_status, hlpt, h2, h10]
      rw [hst]
      exact ⟨iff_of_false (by simp) (by omega), iff_of_true rfl (by omega),
             iff_of_false (by simp) (by omega)⟩
    · have hst : get_connection_status true lpt now = .DISCONNECTED := by
        simp [get_connection_status, hlpt, h2, h10]
      rw [hst]
      exact ⟨iff_of_false (by simp) (by omega), iff_of_false (by simp) (by omega),
             iff_of_true rfl (by omega)⟩

/-- Witness for C6 at last packet time 1 and current time 2 (elapsed 1). -/
theorem C6_connection_status_witness :
    (get_connection_status true 1 2 = .GOOD ↔ (2:Int) - 1 < 2) ∧
    (get_connection_status true 1 2 = .SLOW ↔ ((2:Int) ≤ 2 - 1 ∧ (2:Int) - 1 < 10)) ∧
    (get_connection_status true 1 2 = .DISCONNECTED ↔ (10:Int) ≤ 2 - 1) :=
  C6_connection_status.2.2 1 2 (by decide)

/-- Counterexample to claim C7: in the simple variant a valid packet whose
sink write raises a broken pipe while the sink restart fails makes the
loop body execute break — the receive loop exits without an explicit stop
and without a fatal startup failure. -/
theorem C7_counterexample :
    (simpleStep { connected := true } (.datagram (encodeRtp 2 96 0 0 0 [1, 2]) 5)
      .brokenPipe false 50).2 = false := by
  decide

/-- Claim C7 (amended): socket errors other than timeout increment the
error counter and never exit the loop, and the minimal variant's loop body
always continues, even when a sink restart fails; but in the simple
variant a broken-pipe sink write whose restart fails exits the receive
loop, leaving the statistics of that iteration untouched. -/
theorem C7_loop_exit_behavior :
    (∀ (s : SimpleState) (w : WriteResult) (r : Bool) (now : Int),
      (simpleStep s .ioError w r now).2 = true ∧
      (simpleStep s .ioError w r now).1.errors = s.errors + 1) ∧
    (∀ (s : MinState) (data : List Nat) (wf ro : Bool),
      (minimalStep s data wf ro).2 = true) ∧
    (∀ (s : SimpleState) (data : List Nat) (a : Nat) (now : Int) (p : ParsedPacket),
      parseHeader data = some p → p.version = 2 → p.payload ≠ [] →
      s.aplayAlive = true →
      simpleStep s (.datagram data a) .brokenPipe false now =
        ({ s with aplayAlive := false }, false)) := by
  refine ⟨fun s w r now => ⟨rfl, rfl⟩, ?_, ?_⟩
  · intro s data wf ro
    cases hp : parseHeader data with
    | none => simp [minimalStep, hp]
    | some p =>
      by_cases hv : p.version = 2 <;> simp [minimalStep, hp, hv]
  · intro s data a now p hp hv hpl ha
    simp [simpleStep, hp, hv, hpl, ha]

/-- Witness for C7's amended theorem: the simple variant's break at a
concrete state and packet. -/
theorem C7_loop_exit_behavior_witness :
    simpleStep { connected := true } (.datagram (encodeRtp 2 96 1 0 0 [9]) 3)
        .brokenPipe false 70 =
      ({ ({ connected := true } : SimpleState) with aplayAlive := false }, false) :=
  C7_loop_exit_behavior.2.2 { connected := true } (encodeRtp 2 96 1 0 0 [9]) 3 70
    ⟨2, 96, 1, 0, 0, [9]⟩ (by decide) rfl (by decide) rfl

/-- Claim C8: the simple variant's connected flag flips to disconnected
only when a packet had been seen and more than 5 seconds have elapsed
since it, and the full variant's "no data" warning is never emitted before
10 seconds of uptime have elapsed since the running state began. -/
theorem C8_disconnect_grace :
    (∀ (s : SimpleState) (ev : RxEvent) (w : WriteResult) (r : Bool) (now : Int),
      s.connected = true → (simpleStep s ev w r now).1.connected = false →
      s.last_packet_time > 0 ∧ now - s.last_packet_time > 5) ∧
    (∀ (running : Bool) (now lpt sst : Int),
      check_connection_health running now lpt sst = true → 10 ≤ now - sst) := by
  constructor
  · intro s ev w r now hc hf
    cases ev with
    | datagram data a =>
      cases hp : parseHeader data with
      | none => simp [simpleStep, hp, hc] at hf
      | some p =>
        by_cases hv : p.version = 2
        · by_cases hcond : s.aplayAlive ∧ p.payload ≠ []
          · cases w with
            | brokenPipe =>
              cases r with
              | false => simp [simpleStep, hp, hv, hcond, hc] at hf
              | true =>
                simp [simpleStep, hp, hv, hcond, simpleStatsUpdate,
                  simpleConnUpdate_connected] at hf
            | ok =>
              simp [simpleStep, hp, hv, hcond, simpleStatsUpdate,
                simpleConnUpdate_connected] at hf
            | otherError =>
              simp [simpleStep, hp, hv, hcond, simpleStatsUpdate,
                simpleConnUpdate_connected] at hf
          · simp [simpleStep, hp, hv, hcond, simpleStatsUpdate,
              simpleConnUpdate_connected] at hf
        · simp [simpleStep, hp, hv, hc] at hf
    | timeout =>
      simp only [simpleStep] at hf
      split at hf
      · next hcnd => exact ⟨hcnd.2.1, hcnd.2.2⟩
      · simp [hc] at hf
    | ioError => simp [simpleStep, hc] at hf
  · intro running now lpt sst h
    unfold check_connection_health at h
    split at h
    · exact absurd h (by simp)
    · split at h
      · exact absurd h (by simp)
      · next h2 => omega

/-- Witness for C8: a timeout at time 100 with the last packet at time 10
flips the flag, and the health check warning at 20 seconds of uptime. -/
theorem C8_disconnect_grace_witness :
    (({ connected := true, last_packet_time := 10 } : SimpleState).last_packet_time > 0 ∧
      (100:Int) - ({ connected := true, last_packet_time := 10 } :
        SimpleState).last_packet_time > 5) ∧
    (10:Int) ≤ 120 - 100 :=
  ⟨C8_disconnect_grace.1 { connected := true, last_packet_time := 10 } .timeout .ok true 100
      rfl (by decide),
   C8_disconnect_grace.2 true 120 101 100 (by decide)⟩

/-- Counterexample to claim C10: in the simple variant a validated
datagram whose sink write breaks the pipe while the restart fails leaves
packets_received and bytes_received untouched — the loop exits before the
statistics update, so the sink outcome does affect the receive counters. -/
theorem C10_counterexample :
    (parseHeader (encodeRtp 2 96 3 0 0 [7])).map ParsedPacket.version = some 2 ∧
    (simpleStep { connected := true } (.datagram (encodeRtp 2 96 3 0 0 [7]) 9)
        .brokenPipe false 60).1.packets_received
      = ({ connected := true } : SimpleState).packets_received ∧
    ({ connected := true } : SimpleState).packets_received = 0 := by
  decide

/-- Claim C10 (amended): in the full and minimal variants every validated
datagram increments packets_received by one and bytes_received by the full
datagram length (header included), regardless of the sink outcome; the
simple variant does the same except when a broken-pipe write is followed
by a failed sink restart, in which case the loop exits before the
counters are updated. -/
theorem C10_counters :
    (∀ (s : RxStats) (data : List Nat) (now : Int) (w : Bool) (p : ParsedPacket),
      parseHeader data = some p → p.version = 2 →
      (processDatagram s data now w).1.packets_received = s.packets_received + 1 ∧
      (processDatagram s data now w).1.bytes_received = s.bytes_received + data.length ∧
      processDatagram s data now w = processDatagram s data now (!w)) ∧
    (∀ (s : MinState) (data : List Nat) (wf ro : Bool) (p : ParsedPacket),
      parseHeader data = some p → p.version = 2 →
      (minimalStep s data wf ro).1.packets_received = s.packets_received + 1 ∧
      (minimalStep s data wf ro).1.bytes_received = s.bytes_received + data.length) ∧
    (∀ (s : SimpleState) (data : List Nat) (a : Nat) (now : Int) (w : WriteResult)
        (r : Bool) (p : ParsedPacket),
      parseHeader data = some p → p.version = 2 →
      ¬(w = .brokenPipe ∧ r = false ∧ s.aplayAlive = true ∧ p.payload ≠ []) →
      (simpleStep s (.datagram data a) w r now).1.packets_received
        = s.packets_received + 1 ∧
      (simpleStep s (.datagram data a) w r now).1.bytes_received
        = s.bytes_received + data.length) := by
  refine ⟨?_, ?_, ?_⟩
  · intro s data now w p hp hv
    simp [processDatagram, hp, hv]
  · intro s data wf ro p hp hv
    by_cases hcond : p.payload ≠ [] ∧ s.aplayAlive ∧ wf <;>
      simp [minimalStep, hp, hv, hcond]
  · intro s data a now w r p hp hv hno
    by_cases hcond : s.aplayAlive ∧ p.payload ≠ []
    · cases w with
      | brokenPipe =>
        cases r with
        | false =>
          exact absurd ⟨rfl, rfl, by simpa using hcond.1, hcond.2⟩ hno
        | true =>
          simp [simpleStep, hp, hv, hcond, simpleStatsUpdate,
            (simpleConnUpdate_counters _ a now).1, (simpleConnUpdate_counters _ a now).2]
      | ok =>
        simp [simpleStep, hp, hv, hcond, simpleStatsUpdate,
          (simpleConnUpdate_counters _ a now).1, (simpleConnUpdate_counters _ a now).2]
      | otherError =>
        simp [simpleStep, hp, hv, hcond, simpleStatsUpdate,
          (simpleConnUpdate_counters _ a now).1, (simpleConnUpdate_counters _ a now).2]
    · simp [simpleStep, hp, hv, hcond, simpleStatsUpdate,
        (simpleConnUpdate_counters _ a now).1, (simpleConnUpdate_counters _ a now).2]

/-- Witness for C10's amended theorem at a concrete validated datagram in
the full variant. -/
theorem C10_counters_witness :
    (processDatagram {} (encodeRtp 2 96 0 0 0 [1]) 7 false).1.packets_received
      = ({} : RxStats).packets_received + 1 ∧
    (processDatagram {} (encodeRtp 2 96 0 0 0 [1]) 7 false).1.bytes_received
      = ({} : RxStats).bytes_received + (encodeRtp 2 96 0 0 0 [1]).length ∧
    processDatagram {} (encodeRtp 2 96 0 0 0 [1]) 7 false
      = processDatagram {} (encodeRtp 2 96 0 0 0 [1]) 7 (!false) :=
  C10_counters.1 {} (encodeRtp 2 96 0 0 0 [1]) 7 false ⟨2, 96, 0, 0, 0, [1]⟩
    (by decide) rfl
